import Mathlib

/-!
# Verification of `tansy` (slash-command declaration layer) against its specification

Shallow embedding of `tansy/slash_commands.py` and `tansy/speedup/orjson_serialize.py`.

Python values are modelled by the inductive `PyVal` (with `missing` standing for the
host framework's `MISSING` sentinel and `none` for Python's `None`); Python `dict`s by
insertion-ordered association lists (`PyDict`) whose insert operation replaces an
existing key in place; Python function objects by `PyFunc` (the `__defaults__` and
`__kwdefaults__` storage); callables possibly wrapped in `functools.partial` by
`PyCallable`.

A crucial point of Python semantics for `_overwrite_defaults`: `copy.copy` on a plain
function returns the *identical* object (the `copy` module registers
`types.FunctionType` as an atomic/immutable type and copies it by returning it
unchanged), and `copy.copy` on a `functools.partial` produces a new partial sharing the
same inner function object.  Consequently the assignments to
`func_to_parse.__defaults__` / `__kwdefaults__` mutate storage that is reachable from
the callable originally passed in.  `overwriteDefaults` therefore returns a pair: the
state of the originally-passed callable after the call, and the returned callable.
-/

namespace Tansy

/-- A Python runtime value, as far as the claims need: `none` is Python `None`,
`missing` is the host framework's `MISSING` sentinel (falsy), plus booleans,
integers and strings. -/
inductive PyVal where
  | none
  | missing
  | bool (b : Bool)
  | int (n : Int)
  | str (s : String)
  deriving DecidableEq, Repr

/-- Python truthiness of a `PyVal` (`None`, `MISSING`, `False`, `0` and `""` are
falsy). -/
def pyTruthy : PyVal → Bool
  | .none => false
  | .missing => false
  | .bool b => b
  | .int n => n != 0
  | .str s => s != ""

/-- Python truthiness of `dict.get(key)`: an absent key gives `None`, which is
falsy. -/
def pyTruthyOpt : Option PyVal → Bool
  | Option.none => false
  | Option.some v => pyTruthy v

/-- A raised Python exception, by exception class and message. -/
inductive PyError where
  | typeError (msg : String)
  | valueError (msg : String)
  | importError (msg : String)
  | lookupError (msg : String)
  deriving DecidableEq, Repr

/-- A Python `dict[str, value]` as an insertion-ordered association list. -/
abbrev PyDict := List (String × PyVal)

/-- The keys of a dict, in order. -/
def dictKeys (d : PyDict) : List String := d.map Prod.fst

/-- `d.get(k)`: the value at key `k`, or `none` when absent. -/
def dictGet (d : PyDict) (k : String) : Option PyVal :=
  (d.find? (fun p => p.1 == k)).map Prod.snd

/-- `d[k] = v`: replace the value in place when the key exists, otherwise append
the new pair (Python dicts keep insertion order). -/
def dictInsert (d : PyDict) (k : String) (v : PyVal) : PyDict :=
  if d.any (fun p => p.1 == k) then
    d.map (fun p => if p.1 == k then (k, v) else p)
  else
    d ++ [(k, v)]

/-- The kind of an `inspect.Parameter`. -/
inductive ParamKind where
  | positionalOnly
  | positionalOrKeyword
  | varPositional
  | keywordOnly
  | varKeyword
  deriving DecidableEq, Repr

/-- The mutable defaults storage of a Python function object:
`__defaults__` (a tuple or `None`) and `__kwdefaults__` (a dict or `None`). -/
structure PyFunc where
  defaults : Option (List PyVal)
  kwdefaults : Option PyDict
  deriving DecidableEq, Repr

/-- A callable as `_overwrite_defaults` sees it: either a plain function or a
`functools.partial` wrapper around a function, carrying pre-bound positional
arguments and keywords. -/
inductive PyCallable where
  | plain (f : PyFunc)
  | partialApp (f : PyFunc) (args : List PyVal) (keywords : PyDict)
  deriving DecidableEq, Repr

/-- The inner function object of a callable (`func.func` for a partial). -/
def innerFunc : PyCallable → PyFunc
  | .plain f => f
  | .partialApp f _ _ => f

/-- The classification loop of `_overwrite_defaults` (src/tansy/slash_commands.py
lines 120-130): one pass over the supplied `defaults` dict, sending an entry to the
new `__kwdefaults__` dict when `old_kwarg_defaults.get(name)` is truthy or
`parameters[name].kind == KEYWORD_ONLY`, and otherwise appending its value to the
new `__defaults__` list.  (The supplied `defaults` is a Python dict, so its names
are unique and `new_kwarg_defaults[name] = default` is a fresh insertion.) -/
def overwriteLoop (oldKw : PyDict) (params : String → ParamKind) (defaults : PyDict) :
    List PyVal × PyDict :=
  defaults.foldl
    (fun acc nd =>
      if pyTruthyOpt (dictGet oldKw nd.1) || (params nd.1 == ParamKind.keywordOnly) then
        (acc.1, acc.2 ++ [nd])
      else
        (acc.1 ++ [nd.2], acc.2))
    ([], [])

/-- The effect of `_overwrite_defaults` on the (single) underlying function object:
read `__kwdefaults__ or {}`, run the classification loop, then store
`tuple(new_defaults) if new_defaults else None` into `__defaults__` and
`new_kwarg_defaults or None` into `__kwdefaults__` (lines 118-133). -/
def rewriteFunc (f : PyFunc) (defaults : PyDict) (params : String → ParamKind) : PyFunc :=
  let oldKw := f.kwdefaults.getD []
  let res := overwriteLoop oldKw params defaults
  { defaults := if res.1.isEmpty then Option.none else Option.some res.1,
    kwdefaults := if res.2.isEmpty then Option.none else Option.some res.2 }

/-- `_overwrite_defaults(func, defaults, parameters)` (lines 109-142).
Returns `(state of the callable originally passed in after the call, returned
callable)`.  `copy.copy` of a plain function is the same object, so the
original's storage is the rewritten one; for a partial, `copy.copy` makes a new
partial sharing the inner function, whose storage is rewritten, and the returned
value is a fresh partial over that same inner function with the original's
pre-bound `args` and `keywords`. -/
def overwriteDefaults (func : PyCallable) (defaults : PyDict) (params : String → ParamKind) :
    PyCallable × PyCallable :=
  match func with
  | .plain f =>
      let f2 := rewriteFunc f defaults params
      (.plain f2, .plain f2)
  | .partialApp f args kw =>
      let f2 := rewriteFunc f defaults params
      (.partialApp f2 args kw, .partialApp f2 args kw)

/-- The classification test of the loop, as a predicate on a supplied name:
true iff the old keyword-only default for that name is truthy, or the
parameter's kind is keyword-only. -/
def kwClassified (oldKw : PyDict) (params : String → ParamKind) (name : String) : Bool :=
  pyTruthyOpt (dictGet oldKw name) || (params name == ParamKind.keywordOnly)

theorem overwriteLoop_go (oldKw : PyDict) (params : String → ParamKind) :
    ∀ (defaults : PyDict) (a : List PyVal) (b : PyDict),
      defaults.foldl
        (fun acc nd =>
          if pyTruthyOpt (dictGet oldKw nd.1) || (params nd.1 == ParamKind.keywordOnly) then
            (acc.1, acc.2 ++ [nd])
          else
            (acc.1 ++ [nd.2], acc.2))
        (a, b) =
      (a ++ (defaults.filter (fun nd => !kwClassified oldKw params nd.1)).map Prod.snd,
       b ++ defaults.filter (fun nd => kwClassified oldKw params nd.1)) := by
  intro defaults
  induction defaults with
  | nil => intro a b; simp
  | cons nd rest ih =>
      intro a b
      by_cases h : kwClassified oldKw params nd.1 = true
      · have h' : (pyTruthyOpt (dictGet oldKw nd.1) || (params nd.1 == ParamKind.keywordOnly))
            = true := h
        simp only [List.foldl_cons, h', if_pos rfl, List.filter_cons, h]
        rw [ih]
        simp [h]
      · have h' : (pyTruthyOpt (dictGet oldKw nd.1) || (params nd.1 == ParamKind.keywordOnly))
            = false := by
          simpa [kwClassified] using h
        simp only [List.foldl_cons, h', Bool.false_eq_true, if_false, List.filter_cons]
        rw [ih]
        simp [h]

/-- The single-pass loop computes exactly: positional slot = values of the supplied
entries not classified keyword-only, in order; keyword slot = the supplied entries
classified keyword-only, in order. -/
theorem overwriteLoop_eq (oldKw : PyDict) (params : String → ParamKind) (defaults : PyDict) :
    overwriteLoop oldKw params defaults =
      ((defaults.filter (fun nd => !kwClassified oldKw params nd.1)).map Prod.snd,
       defaults.filter (fun nd => kwClassified oldKw params nd.1)) := by
  unfold overwriteLoop
  simpa only [List.nil_append] using overwriteLoop_go oldKw params defaults [] []

theorem rewriteFunc_eq (f : PyFunc) (d : PyDict) (p : String → ParamKind) :
    rewriteFunc f d p =
      { defaults :=
          if ((d.filter (fun nd => !kwClassified (f.kwdefaults.getD []) p nd.1)).map
              Prod.snd).isEmpty
          then Option.none
          else Option.some ((d.filter
                (fun nd => !kwClassified (f.kwdefaults.getD []) p nd.1)).map Prod.snd),
        kwdefaults :=
          if (d.filter (fun nd => kwClassified (f.kwdefaults.getD []) p nd.1)).isEmpty
          then Option.none
          else Option.some (d.filter (fun nd => kwClassified (f.kwdefaults.getD []) p nd.1)) } := by
  unfold rewriteFunc
  simp only [overwriteLoop_eq]

theorem rewriteFunc_defaults_getD (f : PyFunc) (d : PyDict) (p : String → ParamKind) :
    (rewriteFunc f d p).defaults.getD []
      = (d.filter (fun nd => !kwClassified (f.kwdefaults.getD []) p nd.1)).map Prod.snd := by
  rw [rewriteFunc_eq]
  dsimp only
  split
  · rename_i h
    rw [List.isEmpty_iff] at h
    simp [h]
  · rfl

theorem rewriteFunc_kwdefaults_getD (f : PyFunc) (d : PyDict) (p : String → ParamKind) :
    (rewriteFunc f d p).kwdefaults.getD []
      = d.filter (fun nd => kwClassified (f.kwdefaults.getD []) p nd.1) := by
  rw [rewriteFunc_eq]
  dsimp only
  split
  · rename_i h
    rw [List.isEmpty_iff] at h
    simp [h]
  · rfl

/-- C3 counterexample: the claim "the original callable passed in is left unmodified
(its own positional-defaults and keyword-only-defaults storage is unchanged after the
call)" is false.  `copy.copy` of a plain Python function returns the identical
object, so for a plain function with `__defaults__ = (1,)`, overwriting with
`{"a": 2}` rewrites the original's storage: after the call the originally-passed
callable no longer equals its pre-call state. -/
theorem overwriteDefaults_cex_original_mutated :
    (overwriteDefaults (PyCallable.plain ⟨Option.some [PyVal.int 1], Option.none⟩)
        [("a", PyVal.int 2)] (fun _ => ParamKind.positionalOrKeyword)).1
      ≠ PyCallable.plain ⟨Option.some [PyVal.int 1], Option.none⟩ := by
  decide

/-- C3 (amended): the default-overwrite helper returns a callable whose defaults
reflect the mapping, but — because the shallow copy of a plain Python function is
the very same object — the originally-passed callable's defaults storage is
rewritten in place: after the call the original and the returned callable are in
the same state.  A partially-applied wrapper keeps its pre-bound arguments and
keywords, with only the (shared) inner callable's defaults rewritten. -/
theorem overwriteDefaults_inplace_spec (func : PyCallable) (d : PyDict)
    (p : String → ParamKind) :
    (overwriteDefaults func d p).1 = (overwriteDefaults func d p).2 ∧
    innerFunc (overwriteDefaults func d p).2 = rewriteFunc (innerFunc func) d p ∧
    (∀ f args kw, func = PyCallable.partialApp f args kw →
      (overwriteDefaults func d p).2 = PyCallable.partialApp (rewriteFunc f d p) args kw) := by
  refine ⟨?_, ?_, ?_⟩ <;> cases func <;>
    simp [overwriteDefaults, innerFunc]

/-- Witness for the amended C3 theorem at a concrete partial-application input. -/
theorem overwriteDefaults_inplace_spec_witness :
    (overwriteDefaults (PyCallable.partialApp ⟨Option.none, Option.none⟩ [PyVal.int 7] [])
        [("b", PyVal.int 3)] (fun _ => ParamKind.keywordOnly)).2
      = PyCallable.partialApp
          (rewriteFunc ⟨Option.none, Option.none⟩ [("b", PyVal.int 3)]
            (fun _ => ParamKind.keywordOnly))
          [PyVal.int 7] [] :=
  (overwriteDefaults_inplace_spec
      (PyCallable.partialApp ⟨Option.none, Option.none⟩ [PyVal.int 7] [])
      [("b", PyVal.int 3)] (fun _ => ParamKind.keywordOnly)).2.2
    ⟨Option.none, Option.none⟩ [PyVal.int 7] [] rfl

/-- C4 counterexample: the claim installs a supplied entry into the keyword-only
collection "exactly when the parameter is keyword-only or the parameter already had
a keyword-only default".  The code instead tests Python truthiness of
`old_kwarg_defaults.get(name)`: a function whose `__kwdefaults__` maps `"a"` to the
falsy value `None`, with `"a"` of positional-or-keyword kind, has a pre-existing
keyword-only default for `"a"`, yet the supplied value lands in the positional
defaults tuple and the resulting `__kwdefaults__` is `None`. -/
theorem overwriteDefaults_cex_falsy_kwdefault :
    dictGet [("a", PyVal.none)] "a" = Option.some PyVal.none ∧
    ParamKind.positionalOrKeyword ≠ ParamKind.keywordOnly ∧
    (innerFunc (overwriteDefaults
        (PyCallable.plain ⟨Option.none, Option.some [("a", PyVal.none)]⟩)
        [("a", PyVal.int 5)] (fun _ => ParamKind.positionalOrKeyword)).2).kwdefaults
      = Option.none ∧
    (innerFunc (overwriteDefaults
        (PyCallable.plain ⟨Option.none, Option.some [("a", PyVal.none)]⟩)
        [("a", PyVal.int 5)] (fun _ => ParamKind.positionalOrKeyword)).2).defaults
      = Option.some [PyVal.int 5] := by
  decide

/-- C4 (amended): for every supplied name-to-value entry, the value is installed
into the keyword-only defaults collection exactly when the parameter is
keyword-only or the parameter already had a *truthy* keyword-only default; every
other supplied entry is appended, in the mapping's declaration order, to the
positional defaults collection. -/
theorem overwriteDefaults_kwonly_classification (func : PyCallable) (d : PyDict)
    (p : String → ParamKind) :
    (innerFunc (overwriteDefaults func d p).2).kwdefaults.getD []
      = d.filter (fun nd =>
          pyTruthyOpt (dictGet ((innerFunc func).kwdefaults.getD []) nd.1)
            || (p nd.1 == ParamKind.keywordOnly)) ∧
    (innerFunc (overwriteDefaults func d p).2).defaults.getD []
      = (d.filter (fun nd =>
          !(pyTruthyOpt (dictGet ((innerFunc func).kwdefaults.getD []) nd.1)
            || (p nd.1 == ParamKind.keywordOnly)))).map Prod.snd := by
  have hkw := rewriteFunc_kwdefaults_getD (innerFunc func) d p
  have hpos := rewriteFunc_defaults_getD (innerFunc func) d p
  cases func <;>
    simp only [overwriteDefaults, innerFunc] <;>
    exact ⟨by simpa [kwClassified] using hkw, by simpa [kwClassified] using hpos⟩

/-- C10: the default-overwrite helper replaces rather than merges: the result's
positional defaults are exactly the supplied non-keyword-only-classified values in
mapping order, its keyword-only defaults are exactly the supplied
keyword-only-classified entries, any pre-existing default of a parameter absent
from the supplied mapping is discarded, and an empty resulting collection is
stored as `None`. -/
theorem overwriteDefaults_replaces (func : PyCallable) (d : PyDict)
    (p : String → ParamKind) :
    (innerFunc (overwriteDefaults func d p).2).defaults
      = (if ((d.filter (fun nd =>
              !kwClassified ((innerFunc func).kwdefaults.getD []) p nd.1)).map
              Prod.snd).isEmpty
         then Option.none
         else Option.some ((d.filter (fun nd =>
              !kwClassified ((innerFunc func).kwdefaults.getD []) p nd.1)).map Prod.snd)) ∧
    (innerFunc (overwriteDefaults func d p).2).kwdefaults
      = (if (d.filter
              (fun nd => kwClassified ((innerFunc func).kwdefaults.getD []) p nd.1)).isEmpty
         then Option.none
         else Option.some (d.filter
              (fun nd => kwClassified ((innerFunc func).kwdefaults.getD []) p nd.1))) := by
  have h := rewriteFunc_eq (innerFunc func) d p
  cases func <;>
    simp only [overwriteDefaults, innerFunc] at h ⊢ <;>
    rw [h] <;>
    exact ⟨rfl, rfl⟩

/-- A converter annotation as `_get_converter` (src/tansy/slash_commands.py lines
25-57) distinguishes it: an instance of the host framework's `Converter` class
(identified by `cid`), a routine — carrying its display name (what
`ipy.utils.get_object_name` returns), an identity `rid`, and its
positional-argument count (`co_argcount`, or the signature's parameter count for
routines without `__code__`) — or anything else (neither a routine nor a
converter object). -/
inductive AnnoShape where
  | converterObj (cid : Nat)
  | routine (objName : String) (rid : Nat) (numPositional : Nat)
  | other
  deriving DecidableEq, Repr

/-- An annotation, possibly wrapped in `typing.Annotated[...]`.
`utils.get_from_anno_type` (not under src/; per the spec a pure extraction of the
primary type from an annotated-with-metadata type expression) unwraps the
`annotated` case. -/
inductive Anno where
  | plain (a : AnnoShape)
  | annotated (a : AnnoShape)
  deriving DecidableEq, Repr

/-- A normalized converter, symbolically: the routine itself (two positional
parameters), the `_one_arg_convert` wrapper closing over a one-parameter routine,
or the host framework's extracted converter function for a `Converter` instance. -/
inductive ConvFn where
  | routineAsIs (rid : Nat)
  | oneArgWrapper (rid : Nat)
  | converterFunction (cid : Nat) (name : String)
  deriving DecidableEq, Repr

/-- Runs a normalized converter on `(context, value)`, given the semantics of each
routine/converter identity as a Python callable on its positional argument list.
`_one_arg_convert` discards the context and calls (awaiting if needed) the
underlying routine on the value alone. -/
def ConvFn.run (sem : Nat → List PyVal → PyVal) : ConvFn → PyVal → PyVal → PyVal
  | .routineAsIs rid, c, v => sem rid [c, v]
  | .oneArgWrapper rid, _, v => sem rid [v]
  | .converterFunction cid _, c, v => sem cid [c, v]

/-- `_get_converter(anno, name)` (src lines 25-57): unwrap `Annotated`, adapt a
`Converter` instance via the host framework's extraction mechanism, dispatch a
routine on its positional-argument count (2 → as-is; 1 → context-discarding
wrapper; 0 and >2 → `ValueError` with the exact messages), and yield no
converter for anything else. -/
def getConverter (anno : Anno) (name : String) : Except PyError (Option ConvFn) :=
  let a := match anno with
    | .annotated b => b
    | .plain b => b
  match a with
  | .converterObj cid => .ok (Option.some (.converterFunction cid name))
  | .routine objName rid n =>
      match n with
      | 2 => .ok (Option.some (.routineAsIs rid))
      | 1 => .ok (Option.some (.oneArgWrapper rid))
      | 0 => .error (.valueError
          (objName ++ " for " ++ name ++ " has 0 positional arguments, which is unsupported."))
      | _ => .error (.valueError
          (objName ++ " for " ++ name
            ++ " has more than 2 positional arguments, which is unsupported."))
  | .other => .ok Option.none

/-- C5: converter normalization on a plain callable dispatches on its
positional-parameter count — exactly two returns the callable as-is; exactly one
returns a two-argument wrapper that discards the context and returns the
callable's result on the value alone; zero raises the arity error with message
exactly `"<name> for <param> has 0 positional arguments, which is unsupported."`;
more than two raises the same error kind with message exactly
`"<name> for <param> has more than 2 positional arguments, which is
unsupported."`; an input that is neither callable nor a recognized converter
object yields the no-converter outcome. -/
theorem getConverter_dispatch (objName : String) (rid : Nat) (pname : String) (n : Nat) :
    (getConverter (.plain (.routine objName rid 2)) pname
        = .ok (Option.some (.routineAsIs rid))
      ∧ ∀ sem c v, ConvFn.run sem (.routineAsIs rid) c v = sem rid [c, v]) ∧
    (getConverter (.plain (.routine objName rid 1)) pname
        = .ok (Option.some (.oneArgWrapper rid))
      ∧ ∀ sem c v, ConvFn.run sem (.oneArgWrapper rid) c v = sem rid [v]) ∧
    (getConverter (.plain (.routine objName rid 0)) pname
        = .error (.valueError
            (objName ++ " for " ++ pname
              ++ " has 0 positional arguments, which is unsupported."))) ∧
    (2 < n →
      getConverter (.plain (.routine objName rid n)) pname
        = .error (.valueError
            (objName ++ " for " ++ pname
              ++ " has more than 2 positional arguments, which is unsupported."))) ∧
    (getConverter (.plain .other) pname = .ok Option.none) := by
  refine ⟨⟨rfl, fun _ _ _ => rfl⟩, ⟨rfl, fun _ _ _ => rfl⟩, rfl, ?_, rfl⟩
  intro hn
  obtain ⟨m, rfl⟩ : ∃ m, n = m + 3 := ⟨n - 3, by omega⟩
  rfl

/-- Witness for C5 at a concrete arity above two. -/
theorem getConverter_dispatch_witness :
    getConverter (.plain (.routine "conv" 4 5)) "x"
      = .error (.valueError
          ("conv" ++ " for " ++ "x"
            ++ " has more than 2 positional arguments, which is unsupported.")) :=
  (getConverter_dispatch "conv" 4 "x" 5).2.2.2.1 (by omega)

/-- Modelled from the spec: the parameter marker (`slash_param.ParamInfo`, not under
src/).  Per §4.1 it is a pure data holder; the fields the default/required
determination consults are its declared default value (the `MISSING` sentinel when
absent) and the `_user_provided_type` flag recording whether the protocol option
type was user-supplied.  (Name, description, converter and channel-type fields are
not consulted by that determination and are omitted here.) -/
structure ParamInfo where
  default : PyVal
  userProvidedType : Bool
  deriving DecidableEq, Repr

/-- The `default` slot of an `inspect.Parameter` of the callback: empty (no
default), a `ParamInfo` marker, or a plain value. -/
inductive ParamDefault where
  | empty
  | info (pi : ParamInfo)
  | plain (v : PyVal)
  deriving DecidableEq, Repr

/-- Modelled from the spec: the `required` flag of the option the introspection
loop starts from.  When a marker controls the option, `ParamInfo.generate_option`
(not under src/) builds it from the marker's fields, and per §4.1 the marker's
"default value (absent → required)"; otherwise the loop constructs a host-framework
`SlashCommandOption` whose `required` flag defaults to true (§4.2 step 6
"otherwise required"). -/
def initialRequired : ParamDefault → Bool
  | .info pinfo => pinfo.default == PyVal.missing
  | _ => true

/-- The default/required determination of `TansySlashCommand._parse_parameters`
(src lines 264-284), as a function of the parameter's default slot and of whether
`utils.is_optional` holds of its annotation.  Returns
`(cmd_param.default, option.required)`:
first the if/elif/else on `param_info` and `param.default`, then the
optional-annotation adjustment guarded by `cmd_param.default is MISSING`,
`not param_info or not param_info._user_provided_type`, and
`utils.is_optional(param.annotation)`. -/
def determineDefault (pd : ParamDefault) (annoOptional : Bool) : PyVal × Bool :=
  let step : PyVal × Bool :=
    match pd with
    | .info pinfo => (pinfo.default, initialRequired pd)
    | .plain v => (v, false)
    | .empty => (PyVal.missing, initialRequired pd)
  let userProvided : Bool :=
    match pd with
    | .info pinfo => pinfo.userProvidedType
    | _ => false
  if step.1 == PyVal.missing && !userProvided && annoOptional then
    (PyVal.none, false)
  else
    step

/-- The default/required determination as the specification words it (§4.2 step 6,
claim C6): (a) if a marker controlled the option and declared a default, the
operational default is that declared default and the option is optional; (b) else
if the parameter has a plain callback default, that default is used and the option
is not required; (c) else if the annotation denotes an optional type and no marker
explicitly supplied a type, the option is not required with default `None`;
otherwise the parameter is required with the no-default sentinel.  (Branch (c)'s
"no marker explicitly supplied a type" shows the spec intends a marker that
declared no default to fall through from (a) to (c).) -/
def determineDefaultSpec (pd : ParamDefault) (annoOptional : Bool) : PyVal × Bool :=
  match pd with
  | .info pinfo =>
      if pinfo.default != PyVal.missing then (pinfo.default, false)
      else if !pinfo.userProvidedType && annoOptional then (PyVal.none, false)
      else (PyVal.missing, true)
  | .plain v => (v, false)
  | .empty =>
      if annoOptional then (PyVal.none, false) else (PyVal.missing, true)

/-- C6: the code's default/required determination agrees with the spec's stated
precedence, for every parameter whose plain default (when it has one) is an actual
value rather than the `MISSING` sentinel itself. -/
theorem determineDefault_matches_spec (pd : ParamDefault) (annoOptional : Bool)
    (h : ∀ v, pd = ParamDefault.plain v → v ≠ PyVal.missing) :
    determineDefault pd annoOptional = determineDefaultSpec pd annoOptional := by
  cases pd with
  | empty =>
      cases annoOptional <;> rfl
  | info pinfo =>
      obtain ⟨d, u⟩ := pinfo
      by_cases hd : d = PyVal.missing
      · subst hd
        cases u <;> cases annoOptional <;>
          simp [determineDefault, determineDefaultSpec, initialRequired]
      · have hd' : (d == PyVal.missing) = false := by simpa using hd
        cases u <;> cases annoOptional <;>
          simp [determineDefault, determineDefaultSpec, initialRequired, hd', hd]
  | plain v =>
      have hv : (v == PyVal.missing) = false := by
        have := h v rfl
        simpa using this
      cases annoOptional <;>
        simp [determineDefault, determineDefaultSpec, initialRequired, hv]

/-- Witness for C6 at a marker with declared default `5` and a plain default. -/
theorem determineDefault_matches_spec_witness :
    determineDefault (ParamDefault.info ⟨PyVal.int 5, false⟩) false
        = determineDefaultSpec (ParamDefault.info ⟨PyVal.int 5, false⟩) false ∧
    determineDefault (ParamDefault.plain (PyVal.int 3)) true
        = determineDefaultSpec (ParamDefault.plain (PyVal.int 3)) true :=
  ⟨determineDefault_matches_spec (ParamDefault.info ⟨PyVal.int 5, false⟩) false
      (by intro v hv; cases hv),
   determineDefault_matches_spec (ParamDefault.plain (PyVal.int 3)) true
      (by intro v hv; cases hv; decide)⟩

/-- The invocation context, carrying the already-decoded keyword arguments
(`ctx.kwargs`) handed over by the host framework. -/
structure InteractionContext where
  kwargs : PyDict

/-- `TansySlashCommandParameter` (src lines 145-157): protocol option name,
callback argument name, operational default (`MISSING` = required) and optional
converter.  A converter is applied to `(context, raw value)`; `maybe_coroutine`
awaiting is modelled by a pure function.  (The class also declares a `type` slot,
which `_parse_parameters` never assigns; it is omitted.) -/
structure TansySlashCommandParameter where
  name : String
  argumentName : String
  default : PyVal
  converter : Option (InteractionContext → PyVal → PyVal)

/-- `self.parameters.get(key)` on the name-keyed parameter mapping. -/
def paramsGet (ps : List (String × TansySlashCommandParameter)) (k : String) :
    Option TansySlashCommandParameter :=
  (ps.find? (fun p => p.1 == k)).map Prod.snd

/-- One incoming keyword argument as `call_callback`'s loop body treats it: a key
with no entry in the parameter table passes through under its original key with
its value unchanged; a key with an entry is remapped to the entry's argument name,
with the converter (when present) applied to `(context, raw value)` and the raw
value used unchanged otherwise. -/
def remapEntry (ps : List (String × TansySlashCommandParameter))
    (ctx : InteractionContext) (kv : String × PyVal) : String × PyVal :=
  match paramsGet ps kv.1 with
  | Option.none => kv
  | Option.some p =>
      (p.argumentName,
        match p.converter with
        | Option.some conv => conv ctx kv.2
        | Option.none => kv.2)

/-- The `new_kwargs` dict built by `call_callback` (src lines 328-341): iterate
`ctx.kwargs.items()`, looking each key up in the parameter table, passing unknown
keys through and remapping known keys (converting when a converter is present)
onto the callback's argument name. -/
def newKwargs (ps : List (String × TansySlashCommandParameter))
    (ctx : InteractionContext) : PyDict :=
  ctx.kwargs.foldl
    (fun acc kv =>
      match paramsGet ps kv.1 with
      | Option.none => dictInsert acc kv.1 kv.2
      | Option.some p =>
          match p.converter with
          | Option.some conv => dictInsert acc p.argumentName (conv ctx kv.2)
          | Option.none => dictInsert acc p.argumentName kv.2)
    []

/-- The call `call_callback` ends up making: `callback(ctx, **ctx.kwargs)`
directly when no parameters were declared, else
`call_with_binding(callback, ctx, **new_kwargs)` (which prepends the bound
instance when the command has one).  Both receive the context; the payload
recorded here is the keyword-argument dict. -/
inductive CallbackCall where
  | direct (kwargs : PyDict)
  | withBinding (kwargs : PyDict)

/-- `TansySlashCommand.call_callback` (src lines 316-343), as the call it makes. -/
def callCallback (ps : List (String × TansySlashCommandParameter))
    (ctx : InteractionContext) : CallbackCall :=
  if ps.isEmpty then .direct ctx.kwargs
  else .withBinding (newKwargs ps ctx)

theorem dictInsert_of_not_mem (d : PyDict) (k : String) (v : PyVal)
    (h : k ∉ dictKeys d) : dictInsert d k v = d ++ [(k, v)] := by
  unfold dictInsert
  have hany : d.any (fun p => p.1 == k) = false := by
    rw [List.any_eq_false]
    intro p hp
    simp only [beq_iff_eq]
    intro hk
    exact h (hk ▸ List.mem_map_of_mem Prod.fst hp)
  rw [hany]
  simp

theorem foldl_dictInsert_append (f : String × PyVal → String × PyVal) :
    ∀ (l : PyDict) (acc : PyDict),
      ((l.map f).map Prod.fst).Nodup →
      (∀ kv ∈ l, (f kv).1 ∉ dictKeys acc) →
      l.foldl (fun a kv => dictInsert a (f kv).1 (f kv).2) acc = acc ++ l.map f := by
  intro l
  induction l with
  | nil => intro acc _ _; simp
  | cons kv rest ih =>
      intro acc hnodup hdisj
      have h1 : (f kv).1 ∉ dictKeys acc := hdisj kv (by simp)
      rw [List.foldl_cons, dictInsert_of_not_mem _ _ _ h1]
      rw [List.map_cons, List.map_cons, List.nodup_cons] at hnodup
      obtain ⟨hhead, htail⟩ := hnodup
      rw [ih (acc ++ [f kv]) htail ?_]
      · simp
      · intro kv' hkv' hmem
        rw [dictKeys, List.map_append] at hmem
        rcases List.mem_append.mp hmem with hmem' | hmem'
        · exact hdisj kv' (List.mem_cons_of_mem _ hkv') hmem'
        · have heq : (f kv').1 = (f kv).1 := by simpa using hmem'
          exact hhead (heq ▸ List.mem_map_of_mem Prod.fst (List.mem_map_of_mem f hkv'))

theorem newKwargs_eq_map (ps : List (String × TansySlashCommandParameter))
    (ctx : InteractionContext)
    (hnodup : ((ctx.kwargs.map (remapEntry ps ctx)).map Prod.fst).Nodup) :
    newKwargs ps ctx = ctx.kwargs.map (remapEntry ps ctx) := by
  have hstep : newKwargs ps ctx
      = ctx.kwargs.foldl
          (fun acc kv => dictInsert acc (remapEntry ps ctx kv).1 (remapEntry ps ctx kv).2)
          [] := by
    unfold newKwargs
    congr 1
    funext acc kv
    unfold remapEntry
    cases paramsGet ps kv.1 with
    | none => rfl
    | some p =>
        dsimp only
        cases hc : p.converter <;> simp [hc]
  rw [hstep]
  simpa using foldl_dictInsert_append (remapEntry ps ctx) ctx.kwargs [] hnodup
    (by simp [dictKeys])

/-- C1: with an empty parameter table, the incoming keyword-argument mapping is
forwarded to the callback completely unchanged; with a non-empty table (and no
key collisions among the remapped names), the callback arguments are the incoming
entries pointwise: unknown keys pass through under their original key with value
unchanged, known keys are remapped to the entry's argument name with the
converter (when present) applied to `(context, raw value)` and the raw value used
unchanged otherwise. -/
theorem callCallback_builds_arguments (ps : List (String × TansySlashCommandParameter))
    (ctx : InteractionContext)
    (hnodup : ((ctx.kwargs.map (remapEntry ps ctx)).map Prod.fst).Nodup) :
    (ps = [] → callCallback ps ctx = CallbackCall.direct ctx.kwargs) ∧
    (ps ≠ [] → callCallback ps ctx
        = CallbackCall.withBinding (ctx.kwargs.map (remapEntry ps ctx))) := by
  constructor
  · intro h
    simp [callCallback, h]
  · intro h
    have hne : ps.isEmpty = false := by simpa [List.isEmpty_iff] using h
    simp [callCallback, hne, newKwargs_eq_map ps ctx hnodup]

/-- The parameter table used by the C1 witness: option name `"amount"` remapped to
argument `"qty"` with an integer-producing converter. -/
def wParams : List (String × TansySlashCommandParameter) :=
  [("amount",
    { name := "amount", argumentName := "qty", default := PyVal.missing,
      converter := Option.some (fun _ _ => PyVal.int 10) })]

/-- The context used by the C1 witness: one known key and one unknown key. -/
def wCtx : InteractionContext :=
  { kwargs := [("amount", PyVal.str "10"), ("extra", PyVal.bool true)] }

/-- Witness for C1: the known key `"amount"` is converted and remapped onto
`"qty"`, the unknown key `"extra"` passes through unchanged. -/
theorem callCallback_builds_arguments_witness :
    callCallback wParams wCtx
      = CallbackCall.withBinding [("qty", PyVal.int 10), ("extra", PyVal.bool true)] := by
  have h := (callCallback_builds_arguments wParams wCtx (by decide)).2
    (by unfold wParams; exact List.cons_ne_nil _ _)
  rw [h]
  rfl

/-- A host-framework slash-command option, as far as the command state needs to
track the built option list. -/
structure SlashOption where
  name : String
  description : String
  required : Bool
  deriving DecidableEq, Repr

/-- The mutable state of a `TansySlashCommand` that `_parse_parameters` touches:
the name-keyed parameter mapping, the built option list, the callback, and the
kinds of the cached inspected signature's parameters. -/
structure TansyCommandState where
  parameters : List (String × TansySlashCommandParameter)
  options : List SlashOption
  callback : Option PyCallable
  sigParams : String → ParamKind

/-- `TansySlashCommand._overwrite_with_parameters` (src lines 169-194): collect
`{p.argument_name: p.default for p in self.parameters.values() if p.optional}`
(`p.optional` is `p.default != MISSING`) and rewrite the callback's defaults with
`_overwrite_defaults`, using the cached signature's parameters. -/
def overwriteWithParameters (s : TansyCommandState) (cb : PyCallable) : PyCallable :=
  let defaults : PyDict :=
    s.parameters.foldl
      (fun acc p =>
        if p.2.default != PyVal.missing then dictInsert acc p.2.argumentName p.2.default
        else acc)
      []
  (overwriteDefaults cb defaults s.sigParams).2

/-- `TansySlashCommand._parse_parameters` (src lines 196-202 for the control flow
verified here): return unchanged when there is no callback; when the parameter
mapping is already non-empty, only re-apply `_overwrite_with_parameters` and
return; otherwise run the full option-building pass, given here as `build` (its
body, src lines 204-314, is not consulted by that early-return path). -/
def parseParameters (build : TansyCommandState → Except PyError TansyCommandState)
    (s : TansyCommandState) : Except PyError TansyCommandState :=
  match s.callback with
  | Option.none => .ok s
  | Option.some cb =>
      if s.parameters.isEmpty then build s
      else .ok { s with callback := Option.some (overwriteWithParameters s cb) }

/-- C2: re-running introspection on a command with a non-empty parameter mapping
leaves the option list and the parameter mapping exactly as they were and only
re-applies the default-overwrite step to the callback — whatever the full
option-building pass would do. -/
theorem parseParameters_idempotent
    (build : TansyCommandState → Except PyError TansyCommandState)
    (s : TansyCommandState) (cb : PyCallable)
    (hcb : s.callback = Option.some cb) (hps : s.parameters ≠ []) :
    ∃ s2, parseParameters build s = .ok s2
      ∧ s2.parameters = s.parameters
      ∧ s2.options = s.options
      ∧ s2.callback = Option.some (overwriteWithParameters s cb) := by
  refine ⟨{ s with callback := Option.some (overwriteWithParameters s cb) },
    ?_, rfl, rfl, rfl⟩
  unfold parseParameters
  rw [hcb]
  have hne : s.parameters.isEmpty = false := by simpa [List.isEmpty_iff] using hps
  simp [hne]

/-- The command state used by the C2 witness: one already-built parameter. -/
def wState : TansyCommandState :=
  { parameters := [("x",
      { name := "x", argumentName := "x", default := PyVal.int 3,
        converter := Option.none })],
    options := [{ name := "x", description := "No Description Set", required := false }],
    callback := Option.some (PyCallable.plain ⟨Option.none, Option.none⟩),
    sigParams := fun _ => ParamKind.positionalOrKeyword }

/-- Witness for C2 at a concrete already-introspected command state. -/
theorem parseParameters_idempotent_witness :
    ∃ s2, parseParameters (fun s => Except.ok s) wState = .ok s2
      ∧ s2.parameters = wState.parameters
      ∧ s2.options = wState.options
      ∧ s2.callback = Option.some
          (overwriteWithParameters wState (PyCallable.plain ⟨Option.none, Option.none⟩)) :=
  parseParameters_idempotent (fun s => Except.ok s) wState
    (PyCallable.plain ⟨Option.none, Option.none⟩) rfl (by simp [wState])

/-- A callback as the subcommand decorator inspects it: whether
`asyncio.iscoroutinefunction` holds of it, and its `__doc__` (absent or a possibly
empty string). -/
structure Callback where
  isCoroutineFunction : Bool
  doc : Option String
  deriving DecidableEq, Repr

/-- Python `a or b` for an optional string `a`: `None` and `""` are falsy. -/
def pyOrOptStr (a : Option String) (b : Option String) : Option String :=
  match a with
  | Option.some s => if s ≠ "" then Option.some s else b
  | Option.none => b

/-- Python `doc or fallback`: the docstring when it is present and non-empty,
else the fallback. -/
def docOr (doc : Option String) (fallback : String) : String :=
  match doc with
  | Option.some s => if s ≠ "" then s else fallback
  | Option.none => fallback

/-- The fields of a `TansySlashCommand` that `subcommand`'s wrapper reads from the
base command and sets on the derived one (src lines 360-395). `Option.none`
models Python `None` for the group/subcommand naming fields, and the `MISSING`
sentinel for the missing-description case is modelled by passing
`Option.none` as `subCmdDescription`. -/
structure CommandFields where
  name : String
  description : String
  groupName : Option String
  groupDescription : Option String
  subCmdName : Option String
  subCmdDescription : Option String
  defaultMemberPermissions : Option Int
  dmPermission : Bool
  nsfw : Bool
  scopes : List Int
  checks : List Nat
  callback : Option Callback
  deriving DecidableEq, Repr

/-- `TansySlashCommand.subcommand(...)`'s inner `wrapper(call)` (src lines
369-393), as a state-passing function: the first component of the result is the
state of the base command object after the call — the wrapper only reads `self`
and never assigns to it, so it is returned as it came in — and the second is the
derived subcommand or the raised error.  A non-coroutine callback raises
`TypeError("Subcommand must be coroutine")` before anything is built; a missing
sub-description falls back to `call.__doc__ or "No Description Set"`. -/
def subcommandWrapper (base : CommandFields) (subCmdName : String)
    (groupName : Option String) (subCmdDescription : Option String)
    (groupDescription : Option String) (nsfw : Bool) (inheritChecks : Bool)
    (call : Callback) : CommandFields × Except PyError CommandFields :=
  if ¬call.isCoroutineFunction then
    (base, .error (.typeError "Subcommand must be coroutine"))
  else
    let desc : String :=
      match subCmdDescription with
      | Option.none => docOr call.doc "No Description Set"
      | Option.some d => d
    (base,
     .ok { name := base.name,
           description := base.description,
           groupName := pyOrOptStr groupName base.groupName,
           groupDescription := pyOrOptStr groupDescription base.groupDescription,
           subCmdName := Option.some subCmdName,
           subCmdDescription := Option.some desc,
           defaultMemberPermissions := base.defaultMemberPermissions,
           dmPermission := base.dmPermission,
           nsfw := nsfw,
           scopes := base.scopes,
           checks := if inheritChecks then base.checks else [],
           callback := Option.some call })

/-- C7: deriving a subcommand from a non-asynchronous callback raises the
not-a-coroutine error with message exactly `"Subcommand must be coroutine"` and
leaves the base command unmutated; for an asynchronous callback with no
sub-description given, the derived subcommand's description falls back to the
callback's documentation string, else `"No Description Set"`. -/
theorem subcommandWrapper_spec (base : CommandFields) (n : String)
    (gn : Option String) (gd : Option String) (nsfw : Bool) (inh : Bool)
    (call : Callback) :
    (subcommandWrapper base n gn Option.none gd nsfw inh call).1 = base ∧
    (call.isCoroutineFunction = false →
      (subcommandWrapper base n gn Option.none gd nsfw inh call).2
        = .error (.typeError "Subcommand must be coroutine")) ∧
    (call.isCoroutineFunction = true →
      ∃ cmd, (subcommandWrapper base n gn Option.none gd nsfw inh call).2 = .ok cmd
        ∧ cmd.subCmdDescription = Option.some (docOr call.doc "No Description Set")) := by
  refine ⟨?_, ?_, ?_⟩
  · unfold subcommandWrapper
    split <;> rfl
  · intro h
    simp [subcommandWrapper, h]
  · intro h
    refine ⟨{ name := base.name, description := base.description,
              groupName := pyOrOptStr gn base.groupName,
              groupDescription := pyOrOptStr gd base.groupDescription,
              subCmdName := Option.some n,
              subCmdDescription := Option.some (docOr call.doc "No Description Set"),
              defaultMemberPermissions := base.defaultMemberPermissions,
              dmPermission := base.dmPermission, nsfw := nsfw,
              scopes := base.scopes,
              checks := if inh then base.checks else [],
              callback := Option.some call }, ?_, rfl⟩
    simp [subcommandWrapper, h]

/-- The base command used by the C7 witness. -/
def wBase : CommandFields :=
  { name := "base", description := "base desc", groupName := Option.none,
    groupDescription := Option.none, subCmdName := Option.none,
    subCmdDescription := Option.none, defaultMemberPermissions := Option.none,
    dmPermission := true, nsfw := false, scopes := [0], checks := [],
    callback := Option.none }

/-- Witness for C7: a non-coroutine callback raises with the exact message and
the base is unchanged; a coroutine callback with an empty docstring falls back to
`"No Description Set"`. -/
theorem subcommandWrapper_spec_witness :
    ((subcommandWrapper wBase "sub" Option.none Option.none Option.none false true
        ⟨false, Option.none⟩).1 = wBase
      ∧ (subcommandWrapper wBase "sub" Option.none Option.none Option.none false true
          ⟨false, Option.none⟩).2
        = .error (.typeError "Subcommand must be coroutine")) ∧
    (∃ cmd, (subcommandWrapper wBase "sub" Option.none Option.none Option.none false true
          ⟨true, Option.some ""⟩).2 = .ok cmd
        ∧ cmd.subCmdDescription
          = Option.some (docOr (Option.some "") "No Description Set")) :=
  ⟨⟨(subcommandWrapper_spec wBase "sub" Option.none Option.none false true
        ⟨false, Option.none⟩).1,
    (subcommandWrapper_spec wBase "sub" Option.none Option.none false true
        ⟨false, Option.none⟩).2.1 rfl⟩,
   (subcommandWrapper_spec wBase "sub" Option.none Option.none false true
        ⟨true, Option.some ""⟩).2.2 rfl⟩

/-- The module-level state of `tansy/speedup/orjson_serialize.py` that `patch`
reads and writes: the `OrJsonHTTP` binding (`None` when `import orjson` failed at
load time, else the alternate client type, represented by the identity of its
`__init__`) and the host framework's current `HTTPClient.__init__`. -/
structure SpeedupState where
  orJsonHTTP : Option Nat
  httpClientInit : Nat
  deriving DecidableEq, Repr

/-- `patch()` (src/tansy/speedup/orjson_serialize.py lines 26-30):
`if not OrJsonHTTP: raise ImportError("orjson is not installed.")` — a class
object is truthy and `None` is falsy — then
`HTTPClient.__init__ = OrJsonHTTP.__init__`.  Returns the state after the call
together with the outcome. -/
def patch (s : SpeedupState) : SpeedupState × Except PyError Unit :=
  match s.orJsonHTTP with
  | Option.none => (s, .error (.importError "orjson is not installed."))
  | Option.some initFn => ({ s with httpClientInit := initFn }, .ok ())

/-- C8: with the fast codec unavailable at load time, `patch()` raises the
codec-unavailable error with message exactly `"orjson is not installed."` and
performs no mutation of the host framework's HTTP-client type — the error is
raised before the assignment, so the state is unchanged. -/
theorem patch_unavailable (s : SpeedupState) (h : s.orJsonHTTP = Option.none) :
    patch s = (s, .error (.importError "orjson is not installed.")) := by
  unfold patch
  rw [h]

/-- Witness for C8. -/
theorem patch_unavailable_witness :
    patch ⟨Option.none, 0⟩
      = (⟨Option.none, 0⟩, .error (.importError "orjson is not installed.")) :=
  patch_unavailable ⟨Option.none, 0⟩ rfl

/-- A selection of encoding labels registered with Python's codec registry.
`bytes.decode(label)` raises `LookupError("unknown encoding: <label>")` for any
unregistered label, and `"utf-9"` is not a registered Python encoding. -/
def registeredEncodings : List String :=
  ["ascii", "utf-8", "utf-16", "utf-32", "latin-1"]

/-- Python `bytes.decode(encoding)`: decode with the registered codec (the codec
table `dec` is irrelevant to the claims and kept as a parameter), raising
`LookupError` for an unregistered encoding label. -/
def bytesDecode (dec : String → List Nat → String) (encoding : String)
    (b : List Nat) : Except PyError String :=
  if registeredEncodings.contains encoding then .ok (dec encoding b)
  else .error (.lookupError ("unknown encoding: " ++ encoding))

/-- `orjson_dumps_handler(obj)` (src/tansy/speedup/orjson_serialize.py lines
10-11): `orjson.dumps(obj).decode("utf-9")` — the literal encoding label in the
source is `"utf-9"`.  The fast codec's encoder `dumps` (external; returns the
encoded bytes) and the codec table are parameters. -/
def orjsonDumpsHandler (dec : String → List Nat → String)
    (dumps : PyVal → List Nat) (obj : PyVal) : Except PyError String :=
  bytesDecode dec "utf-9" (dumps obj)

/-- C9 (code bug): the JSON-serialization handler that the alternate client's
login installs on the session never returns the fast codec's byte output decoded
as text — for every input object it raises `LookupError`, because `"utf-9"` is
not a registered Python encoding.  The intended label is evidently `"utf-8"`. -/
theorem orjsonDumpsHandler_always_raises (dec : String → List Nat → String)
    (dumps : PyVal → List Nat) (obj : PyVal) :
    orjsonDumpsHandler dec dumps obj
      = .error (.lookupError "unknown encoding: utf-9") := rfl

end Tansy
